import Mathlib

/-!
Shallow embedding of the book CRUD service in `app/api/routes/books.py`.

Modelling conventions:
* a Python `dict` record with the fixed key set used by the routes becomes the
  structure `Book`; `datetime` values are abstract `Nat` timestamps;
* the module-level mutable globals `books_db` and `NEXT_ID` become the explicit
  state `StoreState`, and each route handler is a function from its arguments
  and the incoming state to a result together with the outgoing state;
* `raise HTTPException(...)` becomes an `Except.error` carrying the status code
  and a structured rendering of the French detail format string (the structured
  constructor records exactly the data interpolated into the message);
* Python `str.lower()` is modelled by `strLower` (character-wise lower-casing)
  and `needle in hay` by the explicit substring scan `strContainsSub`.
-/

/-- A record of `books_db`: a dict with keys id, title, author, isbn,
published_year, available, created_at. -/
structure Book where
  id : Nat
  title : String
  author : String
  isbn : String
  published_year : Int
  available : Bool
  created_at : Nat
  deriving DecidableEq

/-- The module globals `books_db` (a list of records) and `NEXT_ID`. -/
structure StoreState where
  books_db : List Book
  NEXT_ID : Nat
  deriving DecidableEq

/-- Structured rendering of the `detail` strings of the raised
`HTTPException`s; each constructor records the data interpolated into the
corresponding format string. -/
inductive ErrDetail where
  /-- detail of get and update 404: the message names the missing id. -/
  | missingId (book_id : Int)
  /-- detail of the create 400: the message names the duplicated isbn and the
  id of the conflicting record. -/
  | duplicateIsbnOnCreate (isbn : String) (conflicting_id : Nat)
  /-- detail of the update 400: the message names the duplicated isbn. -/
  | duplicateIsbnOnUpdate (isbn : String)
  deriving DecidableEq

/-- `HTTPException(status_code=..., detail=...)`. -/
structure HTTPException where
  status_code : Nat
  detail : ErrDetail
  deriving DecidableEq

/-- The four seeded records of `books_db` (timestamps abstracted to 0). -/
def book1 : Book :=
  { id := 1, title := "1984", author := "George Orwell",
    isbn := "978-0451524935", published_year := 1949,
    available := true, created_at := 0 }

def book2 : Book :=
  { id := 2, title := "Le Petit Prince", author := "Antoine de Saint-Exupéry",
    isbn := "978-2070612758", published_year := 1943,
    available := true, created_at := 0 }

def book3 : Book :=
  { id := 3, title := "Harry Potter à l\x27école des sorciers",
    author := "J.K. Rowling",
    isbn := "978-2070584628", published_year := 1997,
    available := false, created_at := 0 }

def book4 : Book :=
  { id := 4, title := "Les Misérables", author := "Victor Hugo",
    isbn := "978-2070409228", published_year := 1862,
    available := true, created_at := 0 }

/-- Initial value of the global `books_db`. -/
def seedBooks : List Book := [book1, book2, book3, book4]

/-- Initial global state: the seeded list and `NEXT_ID = 5`. -/
def seedState : StoreState := { books_db := seedBooks, NEXT_ID := 5 }

/-- The loop test of `find_book_by_id` in the source is
`if book ["id"]==books_db:`: the record's integer id is compared with the
whole `books_db` list.  In Python `==` between an `int` and a `list` is
`False` (both sides return `NotImplemented`, so the comparison falls back to
identity, which fails), hence the test is `False` for every record. -/
def idEqualsWholeList (_id : Nat) (_db : List Book) : Bool := false

/-- `find_book_by_id`: scans `books_db` and returns the first record passing
the loop test, else `None`. -/
def find_book_by_id (_book_id : Int) (db : List Book) : Option Book :=
  db.find? (fun book => idEqualsWholeList book.id db)

/-- `find_book_by_isbn`: first record whose `isbn` equals the argument,
else `None`. -/
def find_book_by_isbn (book_isbn : String) (db : List Book) : Option Book :=
  db.find? (fun book => book.isbn == book_isbn)

/-- Is `needle` a leading segment of `hay`? (helper for the substring scan). -/
def charsBeginWith : List Char → List Char → Bool
  | [], _ => true
  | _ :: _, [] => false
  | c :: cs, d :: ds => c == d && charsBeginWith cs ds

/-- Does `needle` occur contiguously inside `hay`?  Models Python
`needle in hay` on strings, viewed as character lists. -/
def charsContain (needle : List Char) : List Char → Bool
  | [] => charsBeginWith needle []
  | d :: ds => charsBeginWith needle (d :: ds) || charsContain needle ds

/-- Python `needle in hay` for strings. -/
def strContainsSub (needle hay : String) : Bool :=
  charsContain needle.toList hay.toList

/-- Python `str.lower()`: lower-case every character (character-wise, which
matches Python on the ASCII range covering every author in the store). -/
def strLower (s : String) : String :=
  ⟨s.data.map Char.toLower⟩

/-- `get_all_books(available, author)`: copies `books_db`, then narrows by the
`available` equality filter when the parameter is not `None`, then by the
case-insensitive author substring filter when the parameter is truthy
(Python `if author:` is false for both `None` and the empty string). -/
def get_all_books (available : Option Bool) (author : Option String)
    (db : List Book) : List Book :=
  let afterAvailable :=
    match available with
    | none => db
    | some a => db.filter (fun book => book.available == a)
  match author with
  | none => afterAvailable
  | some a =>
      if a == "" then afterAvailable
      else afterAvailable.filter
        (fun book => strContainsSub (strLower a) (strLower book.author))

/-- `get_book(book_id)`: 404 with a message naming the missing id when
`find_book_by_id` returns `None`, otherwise the record. -/
def get_book (book_id : Int) (db : List Book) : Except HTTPException Book :=
  match find_book_by_id book_id db with
  | none => .error { status_code := 404, detail := .missingId book_id }
  | some book => .ok book

/-- A validated `BookCreate` payload (`title`, `author`, `isbn`,
`published_year`, no further fields). -/
structure BookCreate where
  title : String
  author : String
  isbn : String
  published_year : Int
  deriving DecidableEq

/-- The `new_book` dict built by `create_book`: `NEXT_ID` as id, the payload
fields spread in, `available` forced to `True`, `created_at` set to the
current time. -/
def new_book (now : Nat) (book : BookCreate) (s : StoreState) : Book :=
  { id := s.NEXT_ID, title := book.title, author := book.author,
    isbn := book.isbn, published_year := book.published_year,
    available := true, created_at := now }

/-- `create_book(book)`: duplicate-isbn lookup, then allocation of `NEXT_ID`,
append and counter increment.  The early `raise` leaves both globals exactly
as they were, so the error branch returns the incoming state. -/
def create_book (now : Nat) (book : BookCreate) (s : StoreState) :
    Except HTTPException Book × StoreState :=
  match find_book_by_isbn book.isbn s.books_db with
  | some existing_book =>
      (.error { status_code := 400,
                detail := .duplicateIsbnOnCreate book.isbn existing_book.id }, s)
  | none =>
      (.ok (new_book now book s),
       { books_db := s.books_db ++ [new_book now book s],
         NEXT_ID := s.NEXT_ID + 1 })

/-- A `BookUpdate` payload; `none` models a field absent from the request
body (`model_dump(exclude_unset=True)` drops it). -/
structure BookUpdate where
  title : Option String := none
  author : Option String := none
  isbn : Option String := none
  published_year : Option Int := none
  available : Option Bool := none
  deriving DecidableEq

/-- `book.update(update_data)`: each field present in the payload overwrites
the record's field; absent fields are untouched. -/
def applyUpdate (u : BookUpdate) (b : Book) : Book :=
  { b with
    title := u.title.getD b.title
    author := u.author.getD b.author
    isbn := u.isbn.getD b.isbn
    published_year := u.published_year.getD b.published_year
    available := u.available.getD b.available }

/-- Replace the first record passing `p` by `f` of it: the in-place dict
mutation of the record that `find?` with predicate `p` would return. -/
def replaceFound (p : Book → Bool) (f : Book → Book) : List Book → List Book
  | [] => []
  | b :: bs => if p b then f b :: bs else b :: replaceFound p f bs

/-- Merge step of `update_book`: mutate (in place) the record that
`find_book_by_id` located, i.e. the first one passing its loop test. -/
def mergeIntoStore (book_update : BookUpdate) (book : Book) (s : StoreState) :
    Except HTTPException Book × StoreState :=
  let updated := applyUpdate book_update book
  (.ok updated,
   { s with books_db :=
       (replaceFound (fun b => idEqualsWholeList b.id s.books_db)
         (fun _ => updated) s.books_db) })

/-- `update_book(book_id, book_update)`: 404 when `find_book_by_id` returns
`None`; 400 when the payload supplies an isbn already used by a record with a
different id; otherwise merge the supplied fields in place and return the
record. -/
def update_book (book_id : Int) (book_update : BookUpdate) (s : StoreState) :
    Except HTTPException Book × StoreState :=
  match find_book_by_id book_id s.books_db with
  | none => (.error { status_code := 404, detail := .missingId book_id }, s)
  | some book =>
      match book_update.isbn with
      | some new_isbn =>
          match find_book_by_isbn new_isbn s.books_db with
          | some existing_book =>
              if (existing_book.id : Int) ≠ book_id then
                (.error { status_code := 400,
                          detail := .duplicateIsbnOnUpdate new_isbn }, s)
              else mergeIntoStore book_update book s
          | none => mergeIntoStore book_update book s
      | none => mergeIntoStore book_update book s

/-- A raw create request body before pydantic validation: each of the four
declared fields of `BookBase` may be absent. -/
structure RawBookPayload where
  title : Option String := none
  author : Option String := none
  isbn : Option String := none
  published_year : Option Int := none
  deriving DecidableEq

/-- Pydantic validation of `BookBase` for a create request: all four fields
required; `title` 1..200 characters, `author` 1..100 characters, `isbn`
matching `^[\d-]+$` (one or more characters, each a digit or a hyphen),
`published_year` between 1000 and the current year (`datetime.now().year`,
passed here as `currentYear`).  Returns the parsed payload, or `none` for
the 422 validation error. -/
def validateBookCreate (currentYear : Int) (p : RawBookPayload) :
    Option BookCreate :=
  match p.title, p.author, p.isbn, p.published_year with
  | some t, some a, some i, some y =>
      if 1 ≤ t.length ∧ t.length ≤ 200 ∧ 1 ≤ a.length ∧ a.length ≤ 100 ∧
          1 ≤ i.length ∧ (∀ c ∈ i.toList, c.isDigit = true ∨ c = '-') ∧
          1000 ≤ y ∧ y ≤ currentYear
      then some { title := t, author := a, isbn := i, published_year := y }
      else none
  | _, _, _, _ => none

/-- One mutating API call (payloads already validated at the HTTP boundary). -/
inductive Op where
  | create (now : Nat) (payload : BookCreate)
  | update (book_id : Int) (payload : BookUpdate)

/-- Effect of one call on the globals. -/
def runOp (s : StoreState) : Op → StoreState
  | .create now p => (create_book now p s).2
  | .update i p => (update_book i p s).2

/-- Effect of a sequence of calls on the globals. -/
def runOps (ops : List Op) (s : StoreState) : StoreState :=
  ops.foldl runOp s

/-- The isbn fields of the stored records are pairwise distinct. -/
def isbnsNodup (db : List Book) : Prop := (db.map Book.isbn).Nodup

-- Basic lemmas about the store operations.

theorem find_book_by_id_eq_none (book_id : Int) (db : List Book) :
    find_book_by_id book_id db = none := by
  simp [find_book_by_id, idEqualsWholeList]

theorem update_book_eq (book_id : Int) (u : BookUpdate) (s : StoreState) :
    update_book book_id u s =
      (.error { status_code := 404, detail := .missingId book_id }, s) := by
  simp [update_book, find_book_by_id_eq_none]

theorem get_book_eq (book_id : Int) (db : List Book) :
    get_book book_id db =
      .error { status_code := 404, detail := .missingId book_id } := by
  simp [get_book, find_book_by_id_eq_none]

/-- Claim C3: for every integer input `find_book_by_id` returns `None` (its
loop compares each record's id field to the whole `books_db` list, never to
the argument); consequently every `GET /books/{id}` and every
`PUT /books/{id}` fails with HTTP 404, including for the ids 1..4 that are
present in the seed store. -/
theorem C3_find_book_by_id_always_none :
    (∀ (book_id : Int) (db : List Book), find_book_by_id book_id db = none) ∧
    (∀ (book_id : Int) (db : List Book),
      get_book book_id db =
        .error { status_code := 404, detail := .missingId book_id }) ∧
    (∀ (book_id : Int) (u : BookUpdate) (s : StoreState),
      update_book book_id u s =
        (.error { status_code := 404, detail := .missingId book_id }, s)) ∧
    (get_book 1 seedBooks =
        .error { status_code := 404, detail := .missingId 1 }) ∧
    (get_book 4 seedBooks =
        .error { status_code := 404, detail := .missingId 4 }) :=
  ⟨find_book_by_id_eq_none, get_book_eq, update_book_eq,
   get_book_eq 1 seedBooks, get_book_eq 4 seedBooks⟩

/-- Claim C1 (code bug): the seed store does contain a record whose id is 1,
yet `GET /books/1` fails with 404 naming id 1, because the loop test of
`find_book_by_id` compares the record id with the whole list.  This theorem
evaluates the code at the failing input. -/
theorem C1_getBook_seed_returns_404 :
    (book1 ∈ seedBooks ∧ book1.id = 1) ∧
    get_book 1 seedBooks =
      .error { status_code := 404, detail := .missingId 1 } :=
  ⟨⟨by simp [seedBooks], rfl⟩, get_book_eq 1 seedBooks⟩

/-- The body of the spec scenario `PUT /books/2` with `available = false`. -/
def availableFalsePayload : BookUpdate := { available := some false }

/-- Claim C2 (code bug): the seed store contains a record with id 2, yet
`PUT /books/2` with payload `available = false` fails with 404 and leaves the
store unchanged, because `find_book_by_id` never finds any record.  This
theorem evaluates the code at the failing input of the spec scenario. -/
theorem C2_updateBook_seed_returns_404 :
    (book2 ∈ seedState.books_db ∧ book2.id = 2) ∧
    update_book 2 availableFalsePayload seedState =
      (.error { status_code := 404, detail := .missingId 2 }, seedState) :=
  ⟨⟨by simp [seedState, seedBooks], rfl⟩,
   update_book_eq 2 availableFalsePayload seedState⟩

/-- Claim C5 (code bug): updating a present id with the empty payload should
be a 200 no-op, but the code fails with 404 on every id, the present id 1
included, because `find_book_by_id` never finds any record.  This theorem
evaluates the code at the failing input. -/
theorem C5_emptyUpdate_seed_returns_404 :
    (book1 ∈ seedState.books_db ∧ book1.id = 1) ∧
    update_book 1 ({} : BookUpdate) seedState =
      (.error { status_code := 404, detail := .missingId 1 }, seedState) :=
  ⟨⟨by simp [seedState, seedBooks], rfl⟩,
   update_book_eq 1 ({} : BookUpdate) seedState⟩

-- Lemmas about `find_book_by_isbn` and `create_book`.

theorem find_book_by_isbn_eq_none_iff (i : String) (db : List Book) :
    find_book_by_isbn i db = none ↔ ∀ x ∈ db, x.isbn ≠ i := by
  simp [find_book_by_isbn, List.find?_eq_none]

theorem find_book_by_isbn_eq_some (i : String) (db : List Book) (x : Book)
    (h : find_book_by_isbn i db = some x) : x ∈ db ∧ x.isbn = i := by
  unfold find_book_by_isbn at h
  refine ⟨List.mem_of_find?_eq_some h, ?_⟩
  have hp := List.find?_some h
  simpa using hp

theorem create_book_of_dup (now : Nat) (p : BookCreate) (s : StoreState)
    (x : Book) (hf : find_book_by_isbn p.isbn s.books_db = some x) :
    create_book now p s =
      (.error { status_code := 400,
                detail := .duplicateIsbnOnCreate p.isbn x.id }, s) := by
  simp [create_book, hf]

theorem create_book_of_fresh (now : Nat) (p : BookCreate) (s : StoreState)
    (hf : find_book_by_isbn p.isbn s.books_db = none) :
    create_book now p s =
      (.ok (new_book now p s),
       { books_db := s.books_db ++ [new_book now p s],
         NEXT_ID := s.NEXT_ID + 1 }) := by
  simp [create_book, hf]

theorem create_book_ok_inv (now : Nat) (p : BookCreate) (s : StoreState)
    (nb : Book) (h : (create_book now p s).1 = .ok nb) :
    find_book_by_isbn p.isbn s.books_db = none ∧ nb = new_book now p s := by
  cases hf : find_book_by_isbn p.isbn s.books_db with
  | some x => rw [create_book_of_dup now p s x hf] at h; cases h
  | none =>
      rw [create_book_of_fresh now p s hf] at h
      simp at h
      exact ⟨rfl, h.symm⟩

-- The isbn-uniqueness invariant and its preservation.

theorem runOp_preserves_isbnsNodup (s : StoreState) (o : Op)
    (h : isbnsNodup s.books_db) : isbnsNodup (runOp s o).books_db := by
  cases o with
  | update i p => simpa [runOp, update_book_eq] using h
  | create now p =>
      cases hf : find_book_by_isbn p.isbn s.books_db with
      | some x => simpa [runOp, create_book_of_dup now p s x hf] using h
      | none =>
          have hnone := (find_book_by_isbn_eq_none_iff p.isbn s.books_db).mp hf
          simp only [runOp, create_book_of_fresh now p s hf]
          unfold isbnsNodup at h ⊢
          rw [List.map_append, List.nodup_append]
          refine ⟨h, List.nodup_singleton _, ?_⟩
          intro v hv hv'
          simp only [List.map_cons, List.map_nil, List.mem_singleton] at hv'
          obtain ⟨x, hx, hxv⟩ := List.mem_map.mp hv
          exact hnone x hx (by rw [hxv, hv']; rfl)

theorem runOps_preserves_isbnsNodup (ops : List Op) (s : StoreState)
    (h : isbnsNodup s.books_db) : isbnsNodup (runOps ops s).books_db := by
  induction ops generalizing s with
  | nil => exact h
  | cons o rest ih => exact ih (runOp s o) (runOp_preserves_isbnsNodup s o h)

theorem seed_isbnsNodup : isbnsNodup seedState.books_db := by
  unfold isbnsNodup
  decide

/-- The payload of the spec scenario: a create request reusing the isbn of
the seeded record with id 1. -/
def dupSeedPayload : BookCreate :=
  { title := "T", author := "A", isbn := "978-0451524935",
    published_year := 1949 }

/-- Claim C4: starting from the seed store, isbn values stay pairwise
distinct after any sequence of create and update calls; a create whose isbn
is already taken fails with 400, its detail naming the conflicting record's
id, and leaves the store unchanged; a create passing the isbn lookup really
has a fresh isbn; and in the seed scenario the store size stays 4. -/
theorem C4_isbn_uniqueness :
    (∀ ops : List Op, isbnsNodup (runOps ops seedState).books_db) ∧
    (∀ (now : Nat) (p : BookCreate) (s : StoreState) (x : Book),
      find_book_by_isbn p.isbn s.books_db = some x →
      x ∈ s.books_db ∧ x.isbn = p.isbn ∧
        create_book now p s =
          (.error { status_code := 400,
                    detail := .duplicateIsbnOnCreate p.isbn x.id }, s)) ∧
    (∀ (p : BookCreate) (s : StoreState),
      find_book_by_isbn p.isbn s.books_db = none →
      ∀ x ∈ s.books_db, x.isbn ≠ p.isbn) ∧
    ((create_book 0 dupSeedPayload seedState).2).books_db.length = 4 := by
  refine ⟨?_, ?_, ?_, ?_⟩
  · intro ops
    exact runOps_preserves_isbnsNodup ops seedState seed_isbnsNodup
  · intro now p s x hf
    obtain ⟨hx, hisbn⟩ := find_book_by_isbn_eq_some p.isbn s.books_db x hf
    exact ⟨hx, hisbn, create_book_of_dup now p s x hf⟩
  · intro p s hf
    exact (find_book_by_isbn_eq_none_iff p.isbn s.books_db).mp hf
  · rfl

/-- Witness for C4: the duplicate-isbn create of the spec scenario, on the
seed store, conflicts with the seeded record of id 1 and leaves the state
untouched. -/
theorem C4_isbn_uniqueness_witness :
    book1 ∈ seedState.books_db ∧ book1.isbn = dupSeedPayload.isbn ∧
      create_book 0 dupSeedPayload seedState =
        (.error { status_code := 400,
                  detail := .duplicateIsbnOnCreate dupSeedPayload.isbn book1.id },
         seedState) :=
  C4_isbn_uniqueness.2.1 0 dupSeedPayload seedState book1 rfl

-- The ids-below-counter invariant and its preservation.

/-- Every stored record's id is strictly below the `NEXT_ID` counter. -/
def idsBelowCounter (s : StoreState) : Prop :=
  ∀ b ∈ s.books_db, b.id < s.NEXT_ID

theorem runOp_preserves_idsBelowCounter (s : StoreState) (o : Op)
    (h : idsBelowCounter s) : idsBelowCounter (runOp s o) := by
  cases o with
  | update i p =>
      intro b hb
      rw [runOp, update_book_eq] at hb ⊢
      exact h b hb
  | create now p =>
      cases hf : find_book_by_isbn p.isbn s.books_db with
      | some x =>
          intro b hb
          rw [runOp, create_book_of_dup now p s x hf] at hb ⊢
          exact h b hb
      | none =>
          intro b hb
          rw [runOp, create_book_of_fresh now p s hf] at hb ⊢
          rcases List.mem_append.mp hb with hb | hb
          · exact Nat.lt_succ_of_lt (h b hb)
          · rw [List.mem_singleton.mp hb]
            exact Nat.lt_succ_self _

theorem runOps_preserves_idsBelowCounter (ops : List Op) (s : StoreState)
    (h : idsBelowCounter s) : idsBelowCounter (runOps ops s) := by
  induction ops generalizing s with
  | nil => exact h
  | cons o rest ih => exact ih (runOp s o) (runOp_preserves_idsBelowCounter s o h)

theorem seed_idsBelowCounter : idsBelowCounter seedState := by
  unfold idsBelowCounter
  decide

/-- Claim C6: after any sequence of calls starting from the seed store, a
successful create assigns an id strictly greater than the id of every record
then in the store (hence than every previously assigned id, the store only
ever growing by appends, as the second conjunct states). -/
theorem C6_assigned_id_exceeds_all :
    (∀ (ops : List Op) (now : Nat) (p : BookCreate) (nb b : Book),
      (create_book now p (runOps ops seedState)).1 = .ok nb →
      b ∈ (runOps ops seedState).books_db → b.id < nb.id) ∧
    (∀ (s : StoreState) (o : Op),
      ∃ tail, (runOp s o).books_db = s.books_db ++ tail) := by
  constructor
  · intro ops now p nb b hok hb
    obtain ⟨_, hnb⟩ := create_book_ok_inv now p (runOps ops seedState) nb hok
    rw [hnb]
    exact runOps_preserves_idsBelowCounter ops seedState seed_idsBelowCounter b hb
  · intro s o
    cases o with
    | update i p => exact ⟨[], by rw [runOp, update_book_eq]; simp⟩
    | create now p =>
        cases hf : find_book_by_isbn p.isbn s.books_db with
        | some x => exact ⟨[], by rw [runOp, create_book_of_dup now p s x hf]; simp⟩
        | none =>
            exact ⟨[new_book now p s],
              by rw [runOp, create_book_of_fresh now p s hf]⟩

/-- A create payload with an isbn not present in the seed store. -/
def freshPayload : BookCreate :=
  { title := "Dune", author := "Frank Herbert", isbn := "978-0441013593",
    published_year := 1965 }

/-- Witness for C6: on the seed store, the create of a fresh isbn succeeds
and its assigned id (5) exceeds the largest seeded id (4). -/
theorem C6_assigned_id_exceeds_all_witness :
    book4.id < (new_book 0 freshPayload seedState).id :=
  C6_assigned_id_exceeds_all.1 [] 0 freshPayload
    (new_book 0 freshPayload seedState) book4 rfl (by decide)

/-- Claim C10: a create that fails with the duplicate-isbn 400 leaves the
store and the `NEXT_ID` counter unchanged (the increment sits after the
`raise`), so a later create behaves exactly as if the failed call had never
happened, and when it succeeds it is assigned the counter value already
current before the failed call. -/
theorem C10_failed_create_consumes_no_id :
    ∀ (now : Nat) (p : BookCreate) (s : StoreState) (e : HTTPException)
      (now2 : Nat) (q : BookCreate) (nb : Book),
      (create_book now p s).1 = .error e →
      (create_book now2 q s).1 = .ok nb →
      (create_book now p s).2 = s ∧
      ((create_book now p s).2).NEXT_ID = s.NEXT_ID ∧
      create_book now2 q ((create_book now p s).2) = create_book now2 q s ∧
      nb.id = s.NEXT_ID := by
  intro now p s e now2 q nb herr hok
  have hstate : (create_book now p s).2 = s := by
    cases hf : find_book_by_isbn p.isbn s.books_db with
    | some x => rw [create_book_of_dup now p s x hf]
    | none =>
        rw [create_book_of_fresh now p s hf] at herr
        cases herr
  obtain ⟨_, hnb⟩ := create_book_ok_inv now2 q s nb hok
  exact ⟨hstate, by rw [hstate], by rw [hstate], by rw [hnb]; rfl⟩

/-- Witness for C10: after the duplicate-isbn create of the spec scenario
fails on the seed store, a create with a fresh isbn still gets id 5. -/
theorem C10_failed_create_consumes_no_id_witness :
    (create_book 1 dupSeedPayload seedState).2 = seedState ∧
    ((create_book 1 dupSeedPayload seedState).2).NEXT_ID = seedState.NEXT_ID ∧
    create_book 2 freshPayload ((create_book 1 dupSeedPayload seedState).2) =
      create_book 2 freshPayload seedState ∧
    (new_book 2 freshPayload seedState).id = seedState.NEXT_ID :=
  C10_failed_create_consumes_no_id 1 dupSeedPayload seedState
    { status_code := 400,
      detail := .duplicateIsbnOnCreate dupSeedPayload.isbn book1.id }
    2 freshPayload (new_book 2 freshPayload seedState) rfl rfl

/-- Claim C9: the `available=true` filter yields records of the store all
satisfying `available = true`, and together with the `available=false` result
it covers the unfiltered listing exactly (an unfiltered call returns the
store as is). -/
theorem C9_available_filter_partition :
    (∀ db : List Book, get_all_books none none db = db) ∧
    (∀ (db : List Book) (b : Book),
      b ∈ get_all_books (some true) none db → b ∈ db ∧ b.available = true) ∧
    (∀ (db : List Book) (b : Book),
      b ∈ get_all_books none none db ↔
        b ∈ get_all_books (some true) none db ∨
        b ∈ get_all_books (some false) none db) := by
  have hav : ∀ (av : Bool) (db : List Book),
      get_all_books (some av) none db =
        db.filter (fun book => book.available == av) := fun _ _ => rfl
  refine ⟨fun db => rfl, ?_, ?_⟩
  · intro db b hb
    rw [hav true db] at hb
    have hm := List.mem_filter.mp hb
    exact ⟨hm.1, by simpa using hm.2⟩
  · intro db b
    rw [hav true db, hav false db]
    show b ∈ db ↔ _
    constructor
    · intro hb
      cases hbav : b.available with
      | true => exact Or.inl (List.mem_filter.mpr ⟨hb, by simp [hbav]⟩)
      | false => exact Or.inr (List.mem_filter.mpr ⟨hb, by simp [hbav]⟩)
    · rintro (hb | hb) <;> exact (List.mem_filter.mp hb).1

/-- Witness for C9: the seeded record of id 1 is listed by the
`available=true` filter, belongs to the store and is available. -/
theorem C9_available_filter_partition_witness :
    book1 ∈ seedBooks ∧ book1.available = true :=
  C9_available_filter_partition.2.1 seedBooks book1 (by decide)

-- Helper lemmas for the filter semantics.

theorem charsContain_nil (l : List Char) : charsContain [] l = true := by
  cases l <;> rfl

theorem strContainsSub_empty (hay : String) :
    strContainsSub (strLower "") hay = true :=
  charsContain_nil _

theorem filter_of_forall_true (p : Book → Bool) (db : List Book)
    (h : ∀ b, p b = true) : db.filter p = db := by
  induction db with
  | nil => rfl
  | cons b bs ih => simp [List.filter_cons, h, ih]

theorem filter_congr_books (p q : Book → Bool) (db : List Book)
    (h : ∀ b, p b = q b) : db.filter p = db.filter q := by
  induction db with
  | nil => rfl
  | cons b bs ih => rw [List.filter_cons, List.filter_cons, h, ih]

theorem filter_filter_books (p q : Book → Bool) (db : List Book) :
    (db.filter p).filter q = db.filter (fun b => p b && q b) := by
  induction db with
  | nil => rfl
  | cons b bs ih =>
      cases hp : p b <;> cases hq : q b <;>
        simp [List.filter_cons, hp, hq, ih]

theorem get_all_books_author_eq (a : String) (db : List Book) :
    get_all_books none (some a) db =
      db.filter (fun book => strContainsSub (strLower a) (strLower book.author)) := by
  by_cases h : a = ""
  · subst h
    rw [show get_all_books none (some "") db = db from rfl]
    exact (filter_of_forall_true _ db (fun b => strContainsSub_empty _)).symm
  · have hbe : (a == "") = false := beq_eq_false_iff_ne.mpr h
    simp [get_all_books, hbe]

/-- Claim C7: listing with an author filter retains exactly the records whose
lower-cased author contains the lower-cased filter as a substring (the empty
filter is skipped by the code, but the empty string is a substring of every
author, so the characterization is unconditional); filtering by `rowling`
matches the seeded `J.K. Rowling` record; and the available and author
filters compose by logical AND. -/
theorem C7_author_filter_semantics :
    (∀ (db : List Book) (a : String),
      get_all_books none (some a) db =
        db.filter (fun book =>
          strContainsSub (strLower a) (strLower book.author))) ∧
    strContainsSub (strLower "rowling") (strLower "J.K. Rowling") = true ∧
    get_all_books none (some "rowling") seedBooks = [book3] ∧
    (∀ (db : List Book) (av : Bool) (a : String),
      get_all_books (some av) (some a) db =
        db.filter (fun book =>
          (book.available == av) &&
            strContainsSub (strLower a) (strLower book.author))) := by
  refine ⟨fun db a => get_all_books_author_eq a db, by decide, by decide, ?_⟩
  intro db av a
  by_cases h : a = ""
  · subst h
    rw [show get_all_books (some av) (some "") db =
          db.filter (fun book => book.available == av) from rfl]
    exact (filter_congr_books _ _ db
      (fun b => (by rw [strContainsSub_empty, Bool.and_true] :
        ((b.available == av) &&
          strContainsSub (strLower "") (strLower b.author)) =
          (b.available == av)))).symm
  · have hbe : (a == "") = false := beq_eq_false_iff_ne.mpr h
    rw [show get_all_books (some av) (some a) db =
          (db.filter (fun book => book.available == av)).filter
            (fun book => strContainsSub (strLower a) (strLower book.author)) from
        by simp [get_all_books, hbe]]
    exact filter_filter_books _ _ db

/-- The payload of the C8 counterexample: all four fields present, the isbn
`1` made of digits only, the year 2000 inside [1000, 2025]; the claim
therefore asserts it passes validation, but the `min_length=1` bound on
`title` (not listed by the claim) rejects its empty title. -/
def emptyTitlePayload : RawBookPayload :=
  { title := some "", author := some "A", isbn := some "1",
    published_year := some 2000 }

/-- Claim C8 counterexample: `emptyTitlePayload` is missing none of title,
author, isbn, published_year; its isbn consists of a digit; its year is
within range; yet validation rejects it (returns `none`, the 422 outcome),
refuting the claim that every such payload passes validation. -/
theorem C8_counterexample_empty_title :
    emptyTitlePayload.title = some "" ∧
    emptyTitlePayload.author = some "A" ∧
    emptyTitlePayload.isbn = some "1" ∧
    emptyTitlePayload.published_year = some 2000 ∧
    validateBookCreate 2025 emptyTitlePayload = none := by
  refine ⟨rfl, rfl, rfl, rfl, ?_⟩
  decide

/-- Claim C8 (amended): a create payload passes validation iff all four
fields are present, the title has 1..200 characters, the author 1..100
characters, the isbn is nonempty and made of digits and hyphens only, and
the published year lies in [1000, currentYear]. -/
theorem C8_validateBookCreate_iff (currentYear : Int) (p : RawBookPayload) :
    (validateBookCreate currentYear p).isSome = true ↔
      ∃ t a i y, p.title = some t ∧ p.author = some a ∧ p.isbn = some i ∧
        p.published_year = some y ∧
        1 ≤ t.length ∧ t.length ≤ 200 ∧ 1 ≤ a.length ∧ a.length ≤ 100 ∧
        1 ≤ i.length ∧ (∀ c ∈ i.toList, c.isDigit = true ∨ c = '-') ∧
        1000 ≤ y ∧ y ≤ currentYear := by
  cases ht : p.title with
  | none => simp [validateBookCreate, ht]
  | some t =>
  cases ha : p.author with
  | none => simp [validateBookCreate, ht, ha]
  | some a =>
  cases hi : p.isbn with
  | none => simp [validateBookCreate, ht, ha, hi]
  | some i =>
  cases hy : p.published_year with
  | none => simp [validateBookCreate, ht, ha, hi, hy]
  | some y =>
  simp only [validateBookCreate, ht, ha, hi, hy, Option.some.injEq]
  split_ifs with hc
  · simp only [Option.isSome_some, true_iff]
    exact ⟨t, a, i, y, rfl, rfl, rfl, rfl, hc.1, hc.2.1, hc.2.2.1, hc.2.2.2.1,
      hc.2.2.2.2.1, hc.2.2.2.2.2.1, hc.2.2.2.2.2.2.1, hc.2.2.2.2.2.2.2⟩
  · simp only [Option.isSome_none, Bool.false_eq_true, false_iff]
    intro hcon
    obtain ⟨t', a', i', y', het, hea, hei, hey, h1, h2, h3, h4, h5, h6, h7, h8⟩ :=
      hcon
    cases het
    cases hea
    cases hei
    cases hey
    exact hc ⟨h1, h2, h3, h4, h5, h6, h7, h8⟩

/-- A raw payload carrying the seed record of id 1 (valid against every
constraint of the amended C8). -/
def rawSeedPayload : RawBookPayload :=
  { title := some "1984", author := some "George Orwell",
    isbn := some "978-0451524935", published_year := some 1949 }

/-- Witness for the amended C8: the raw payload of the first seeded record
passes validation in year 2025. -/
theorem C8_validateBookCreate_iff_witness :
    (validateBookCreate 2025 rawSeedPayload).isSome = true :=
  (C8_validateBookCreate_iff 2025 rawSeedPayload).mpr
    ⟨"1984", "George Orwell", "978-0451524935", 1949, rfl, rfl, rfl, rfl,
     by decide, by decide, by decide, by decide, by decide, by decide,
     by decide, by decide⟩
